import Mathlib

/-!
Shallow embedding of the star-burger fulfillment core: the restaurant
matching engine, distance ranking, price locking rule, pre-save hooks for
orders and restaurants, and the geocoding adapter.  Definitions are
translated from `foodcartapp/models.py`, `foodcartapp/serializers.py` and
`geocoder.py`.  Database access is modelled by explicit lookup functions
`ℕ → Option _`; a pre-save hook returns `Except PyError _`, where a raised
Python exception is an `Except.error`.  Decimal values are rationals
(Django coerces resolver results to `Decimal` on save); the geodesic
distance computation of `geopy` is an oracle parameter, since only its
use, never its value, is determined by the code under study.
-/

namespace StarBurger

/-- Python exceptions that the embedded code can raise:
`Model.DoesNotExist` from `Model.objects.get`, `TypeError` from unpacking
`None`, `ValueError` from unpacking a sequence of the wrong length. -/
inductive PyError where
  | doesNotExist
  | typeError
  | valueError
deriving DecidableEq, Repr

/-- The `OrderStatus` enum of `models.py` (the display labels are not
needed by any claim). -/
inductive OrderStatus where
  | SUBMITTED
  | IN_PROGRESS
  | IN_DELIVERY
  | DELIVERED
deriving DecidableEq, Repr

/-- Python truthiness of an optional decimal field: `None` and `0` are
falsy, every other value is truthy.  This is the test applied by
`all([...])` in `Restaurant.get_distance_to`. -/
def truthy (x : Option ℚ) : Bool :=
  match x with
  | none => false
  | some q => q != 0

/-- Round-half-to-even to an integer, as Python's builtin `round`. -/
def roundHalfEven (x : ℚ) : ℤ :=
  let f := ⌊x⌋
  let frac := x - (f : ℚ)
  if frac < 1/2 then f
  else if 1/2 < frac then f + 1
  else if f % 2 = 0 then f else f + 1

/-- Python's `round(x, 3)`. -/
def round3 (x : ℚ) : ℚ := (roundHalfEven (x * 1000) : ℚ) / 1000

/-- The `Restaurant` model: identity, name, free-text address and the
optional resolved coordinates.  Fields not used by the embedded logic
(`contact_phone`) are omitted.  `id` is `none` for an instance that has
not been persisted yet. -/
structure Restaurant where
  id : Option ℕ
  name : String
  address : String
  latitude : Option ℚ
  longitude : Option ℚ
deriving DecidableEq, Repr

/-- `Restaurant.get_distance_to`: `None` unless all four coordinate
values are truthy; otherwise the geodesic distance in km, rounded to 3
decimals, with a zero raw distance collapsed to `None` by the final
`if kms:` truthiness test.  `geodesic` is the `geopy` distance oracle. -/
def Restaurant.get_distance_to (geodesic : ℚ → ℚ → ℚ → ℚ → ℚ) (self : Restaurant)
    (address_lat address_long : Option ℚ) : Option ℚ :=
  if truthy address_lat && truthy address_long
      && truthy self.latitude && truthy self.longitude then
    let kms := geodesic (address_lat.getD 0) (address_long.getD 0)
      (self.latitude.getD 0) (self.longitude.getD 0)
    if kms != 0 then some (round3 kms) else none
  else none

/-- The `Product` model restricted to the fields the embedded logic
reads: identity and current unit price. -/
structure Product where
  id : Option ℕ
  price : ℚ
deriving DecidableEq, Repr

/-- A `RestaurantMenuItem` row: restaurant × product with an
availability flag. -/
structure RestaurantMenuItem where
  restaurant : Restaurant
  product : Product
  availability : Bool
deriving DecidableEq, Repr

/-- An `OrderedItem` (order line item): the referenced product, the
quantity and the locked line price `product_price`.  The parent-order
foreign key is left implicit: functions receive the list of line items
belonging to the order under consideration. -/
structure OrderedItem where
  id : Option ℕ
  product : Product
  quantity : ℕ
  product_price : ℚ
deriving DecidableEq, Repr

/-- The `Order` model restricted to the fields the embedded logic reads:
identity, delivery address, status, the executing-restaurant foreign key
(by restaurant id, as Django compares model instances by primary key)
and the optional resolved delivery coordinates. -/
structure Order where
  id : Option ℕ
  first_name : String
  last_name : String
  delivery_address : String
  status : OrderStatus
  executing_restaurant : Option ℕ
  delivery_latitude : Option ℚ
  delivery_longitude : Option ℚ
deriving DecidableEq, Repr

/-- The sort key used by `Order.get_matching_restaurants`:
`restaurant.get_distance_to(...) or math.inf`.  Both a `None` distance
and a distance of exactly `0.0` are falsy in Python, so both become
`+inf`, modelled as `⊤` in `WithTop ℚ`. -/
def sortKey (geodesic : ℚ → ℚ → ℚ → ℚ → ℚ) (r : Restaurant)
    (lat long : Option ℚ) : WithTop ℚ :=
  match r.get_distance_to geodesic lat long with
  | none => ⊤
  | some d => if d = 0 then ⊤ else (d : WithTop ℚ)

/-- The menu rows that contribute to the coverage counters: the queryset
filter `availability=True` composed with the loop test
`menu_item.product in products` (Django `in` compares by primary key). -/
def matchedRows (menuItems : List RestaurantMenuItem) (products : List Product) :
    List RestaurantMenuItem :=
  (menuItems.filter (fun m => m.availability)).filter
    (fun m => products.any (fun p => p.id == m.product.id))

/-- The coverage counter `matching_restaurants[restaurant]` of the
defaultdict for the restaurant with primary key `rid`: the number of
availability-true menu rows of that restaurant whose product occurs in
the order's product list. -/
def availCount (menuItems : List RestaurantMenuItem) (rid : Option ℕ)
    (products : List Product) : ℕ :=
  ((matchedRows menuItems products).filter (fun m => m.restaurant.id == rid)).length

/-- One step of defaultdict key creation: a restaurant key (compared by
primary key, as Django hashes model instances) is appended on its first
matched row and kept in first-insertion order thereafter. -/
def insertRestaurant (acc : List Restaurant) (m : RestaurantMenuItem) : List Restaurant :=
  if acc.any (fun r => r.id == m.restaurant.id) then acc else acc ++ [m.restaurant]

/-- The defaultdict keys in insertion order: the distinct restaurants of
the matched rows, each at its first occurrence. -/
def restaurantKeys (rows : List RestaurantMenuItem) : List Restaurant :=
  rows.foldl insertRestaurant []

/-- `Order.get_matching_restaurants`: build the per-restaurant coverage
counters over the availability-true menu rows, keep the restaurants
whose counter equals `len(products)` where `products` is the list (with
duplicates) of the order's line-item products, and, when
`order_by_remoteness` is set, sort stably by
`get_distance_to(...) or math.inf` (Python's `sorted` is a stable merge
sort). -/
def Order.get_matching_restaurants (geodesic : ℚ → ℚ → ℚ → ℚ → ℚ) (self : Order)
    (ordered_items : List OrderedItem) (menuItems : List RestaurantMenuItem)
    (order_by_remoteness : Bool) : List Restaurant :=
  let products := ordered_items.map (fun o => o.product)
  let rows := matchedRows menuItems products
  let ms := (restaurantKeys rows).filter
    (fun r => availCount menuItems r.id products == products.length)
  if order_by_remoteness then
    ms.mergeSort (fun a b =>
      decide (sortKey geodesic a self.delivery_latitude self.delivery_longitude
        ≤ sortKey geodesic b self.delivery_latitude self.delivery_longitude))
  else ms

/-- The per-order annotation of `OrderQuerySet.total_amount`:
`Sum(F(ordered_items__quantity) * F(ordered_items__product_price))` over
the order's line items. -/
def total_amount (ordered_items : List OrderedItem) : ℚ :=
  (ordered_items.map (fun it => (it.quantity : ℚ) * it.product_price)).sum

/-- `OrderQuerySet.total_amount`: optionally exclude `DELIVERED` orders
from the queryset, then annotate each remaining order with the sum
above.  An order is paired with its line items. -/
def OrderQuerySet.total_amount (orders : List (Order × List OrderedItem))
    (exclude_delivered : Bool) : List (Order × ℚ) :=
  let queryset := if exclude_delivered then
      orders.filter (fun ol => !(ol.fst.status == OrderStatus.DELIVERED))
    else orders
  queryset.map (fun ol => (ol.fst, StarBurger.total_amount ol.snd))

/-- The pre-save hook `update_ordered_item_price`: on creation
(`instance.id is None`) the locked price is set to
`product.price * quantity`; on update the previously stored row is
loaded (`DoesNotExist` if absent) and a differing supplied price is
silently overwritten with the stored one. -/
def update_ordered_item_price (db : ℕ → Option OrderedItem) (inst : OrderedItem) :
    Except PyError OrderedItem :=
  match inst.id with
  | none => Except.ok { inst with product_price := inst.product.price * (inst.quantity : ℚ) }
  | some i =>
    match db i with
    | none => Except.error PyError.doesNotExist
    | some previous =>
      if previous.product_price != inst.product_price then
        Except.ok { inst with product_price := previous.product_price }
      else Except.ok inst

/-- Python's `s.split(" ")` on the character list: split at every single
space, keeping empty segments, exactly as `str.split` with an explicit
separator does. -/
def splitSpaceChars : List Char → List (List Char)
  | [] => [[]]
  | c :: cs =>
    let rest := splitSpaceChars cs
    if c = ' ' then [] :: rest
    else
      match rest with
      | [] => [[c]]
      | t :: ts => (c :: t) :: ts

/-- Python's `s.split(" ")`. -/
def splitSpace (s : String) : List String :=
  (splitSpaceChars s.data).map (fun cs => String.mk cs)

/-- The structured body of a geocoder response: the HTTP success flag
and the `pos` string of each `featureMember`, in order. -/
structure GeoResponse where
  ok : Bool
  positions : List String
deriving DecidableEq, Repr

/-- `resolve_location_for_address` from `geocoder.py`, as a function of
the service response: `None` on a non-success status or an empty result
set, otherwise the two space-separated tokens of the first place's `pos`
string, bound as `lon, lat = pos.split(" ")` and returned in that order
(a token count other than two would raise `ValueError`). -/
def resolve_location_for_address (resp : GeoResponse) :
    Except PyError (Option (String × String)) :=
  if !resp.ok then Except.ok none
  else
    match resp.positions with
    | [] => Except.ok none
    | pos :: _ =>
      match splitSpace pos with
      | [lon, lat] => Except.ok (some (lon, lat))
      | _ => Except.error PyError.valueError

/-- The pre-save hook `update_restaurant_location`.  `resolve` abstracts
the geocoding round trip (`resolve_location_for_address` with its result
coerced to decimals); the source's
`latitude, longitude = resolve_location_for_address(...)` raises
`TypeError` when the resolver returns `None`.  The previous row is
fetched unconditionally by `Restaurant.objects.get(id=instance.id)`,
which raises `DoesNotExist` when `id` is unset or unknown. -/
def update_restaurant_location (db : ℕ → Option Restaurant)
    (resolve : String → Option (ℚ × ℚ)) (inst : Restaurant) :
    Except PyError Restaurant :=
  match inst.id.bind db with
  | none => Except.error PyError.doesNotExist
  | some previous_location =>
    if previous_location.address != inst.address && inst.address != "" then
      match resolve inst.address with
      | none => Except.error PyError.typeError
      | some (latitude, longitude) =>
        if latitude != 0 && longitude != 0 then
          Except.ok { inst with latitude := some latitude, longitude := some longitude }
        else Except.ok inst
    else Except.ok inst

/-- The pre-save hook `update_order`.  The previous row is fetched
unconditionally (`DoesNotExist` when `id` is unset); if the executing
restaurant changed and the new value is not `None` the status is forced
to `IN_PROGRESS`; if the delivery address changed to a non-empty value
the resolver is invoked, with the same `TypeError` on an unresolved
(`None`) result as in `update_restaurant_location`. -/
def update_order (db : ℕ → Option Order) (resolve : String → Option (ℚ × ℚ))
    (inst : Order) : Except PyError Order :=
  match inst.id.bind db with
  | none => Except.error PyError.doesNotExist
  | some previous_order_instance =>
    let inst1 :=
      if previous_order_instance.executing_restaurant != inst.executing_restaurant
          && inst.executing_restaurant.isSome then
        { inst with status := OrderStatus.IN_PROGRESS }
      else inst
    if previous_order_instance.delivery_address != inst1.delivery_address
        && inst1.delivery_address != "" then
      match resolve inst1.delivery_address with
      | none => Except.error PyError.typeError
      | some (latitude, longitude) =>
        if latitude != 0 && longitude != 0 then
          Except.ok { inst1 with
            delivery_latitude := some latitude
            delivery_longitude := some longitude }
        else Except.ok inst1
    else Except.ok inst1

/-- `OrderSerializer.create`: `Order.objects.create(**validated_data)`
saves a fresh instance whose primary key is still unset, which fires the
`pre_save` signal, i.e. `update_order`, before the insert. -/
def OrderSerializer_create (db : ℕ → Option Order)
    (resolve : String → Option (ℚ × ℚ)) (payload : Order) : Except PyError Order :=
  update_order db resolve { payload with id := none }

/-! Concrete records used to instantiate the theorems below. -/

/-- Example product A: unit price 100. -/
def prodA : Product := ⟨some 5, 100⟩

/-- Example product B: unit price 50. -/
def prodB : Product := ⟨some 6, 50⟩

/-- Example persisted restaurant with unresolved coordinates. -/
def exR1 : Restaurant := ⟨some 1, "R1", "addr1", none, none⟩

/-- A menu with one availability-true row: restaurant 1 offers product A. -/
def exMenu : List RestaurantMenuItem := [⟨exR1, prodA, true⟩]

/-- Two distinct line items that reference the same product A. -/
def exItems : List OrderedItem := [⟨some 10, prodA, 1, 100⟩, ⟨some 11, prodA, 1, 100⟩]

/-- An example persisted order with no line items attached here. -/
def exOrder : Order := ⟨some 1, "A", "B", "addr", OrderStatus.SUBMITTED, none, none, none⟩

/-- A constant geodesic oracle (the coordinates in the examples make it
irrelevant). -/
def exGeodesic : ℚ → ℚ → ℚ → ℚ → ℚ := fun _ _ _ _ => 0

/-- Line item: product A, quantity 2, locked price 200. -/
def exItemA2 : OrderedItem := ⟨some 20, prodA, 2, 200⟩

/-- Line item: product B, quantity 1, locked price 50. -/
def exItemB1 : OrderedItem := ⟨some 21, prodB, 1, 50⟩

/-- Stored line item with locked price 200. -/
def exPrevItem : OrderedItem := ⟨some 7, prodA, 2, 200⟩

/-- Update attempt on the stored line item supplying price 999. -/
def exInstItem : OrderedItem := ⟨some 7, prodA, 2, 999⟩

/-- Line-item table holding only the stored item with id 7. -/
def exItemDb : ℕ → Option OrderedItem := fun i => if i = 7 then some exPrevItem else none

/-- Stored order: executing restaurant 1, status `IN_DELIVERY`. -/
def exPrev5 : Order := ⟨some 1, "f", "l", "addr", OrderStatus.IN_DELIVERY, some 1, none, none⟩

/-- Update reassigning the same order to restaurant 2 while supplying
status `DELIVERED`. -/
def exInst5 : Order := ⟨some 1, "f", "l", "addr", OrderStatus.DELIVERED, some 2, none, none⟩

/-- Order table holding only the stored order with id 1. -/
def exDb5 : ℕ → Option Order := fun i => if i = 1 then some exPrev5 else none

/-- A resolver whose lookup is always unresolved. -/
def exResolveNone : String → Option (ℚ × ℚ) := fun _ => none

/-- Order table holding only `exOrder` under id 1. -/
def exDb6 : ℕ → Option Order := fun i => if i = 1 then some exOrder else none

/-- Update of `exOrder` changing its delivery address. -/
def exInst6 : Order := ⟨some 1, "A", "B", "new addr", OrderStatus.SUBMITTED, none, none, none⟩

/-- Restaurant table holding only `exR1` under id 1. -/
def exRdb : ℕ → Option Restaurant := fun i => if i = 1 then some exR1 else none

/-- Update of `exR1` changing its address. -/
def exInstR : Restaurant := ⟨some 1, "R1", "addr2", none, none⟩

/-- A brand-new restaurant instance whose identity is not yet assigned. -/
def exFreshR : Restaurant := ⟨none, "New", "addr3", none, none⟩

/-- A restaurant with resolved coordinates of which the latitude is
exactly 0. -/
def exR9 : Restaurant := ⟨some 3, "R9", "a", some 0, some 37⟩

end StarBurger

/-! Helper lemmas about the matching engine. -/

namespace StarBurger

/-- A restaurant id occurs among the accumulated defaultdict keys after a
fold exactly when it was already accumulated or some processed row
references it. -/
lemma exists_mem_foldl_insertRestaurant (rows : List RestaurantMenuItem)
    (acc : List Restaurant) (i : Option ℕ) :
    (∃ r ∈ rows.foldl insertRestaurant acc, r.id = i) ↔
      (∃ r ∈ acc, r.id = i) ∨ ∃ m ∈ rows, m.restaurant.id = i := by
  induction rows generalizing acc with
  | nil => simp
  | cons m rows ih =>
    simp only [List.foldl_cons, ih, List.mem_cons]
    have h : (∃ r ∈ insertRestaurant acc m, r.id = i) ↔
        ((∃ r ∈ acc, r.id = i) ∨ m.restaurant.id = i) := by
      unfold insertRestaurant
      split
      · rename_i hc
        constructor
        · exact fun hh => Or.inl hh
        · rintro (hh | hh)
          · exact hh
          · obtain ⟨r, hr, hri⟩ := List.any_eq_true.mp hc
            exact ⟨r, hr, by rw [beq_iff_eq] at hri; rw [hri, hh]⟩
      · constructor
        · rintro ⟨r, hr, hri⟩
          rcases List.mem_append.mp hr with h1 | h1
          · exact Or.inl ⟨r, h1, hri⟩
          · simp only [List.mem_singleton] at h1
            subst h1; exact Or.inr hri
        · rintro (⟨r, hr, hri⟩ | hh)
          · exact ⟨r, List.mem_append.mpr (Or.inl hr), hri⟩
          · exact ⟨m.restaurant, List.mem_append.mpr (Or.inr (List.mem_singleton.mpr rfl)), hh⟩
    rw [h]
    constructor
    · rintro (⟨h1 | h1⟩ | h1)
      · exact Or.inl h1
      · exact Or.inr ⟨m, Or.inl rfl, h1⟩
      · obtain ⟨m2, hm2, hi2⟩ := h1
        exact Or.inr ⟨m2, Or.inr hm2, hi2⟩
    · rintro (h1 | ⟨m2, (hm2 | hm2), hi2⟩)
      · exact Or.inl (Or.inl h1)
      · subst hm2; exact Or.inl (Or.inr hi2)
      · exact Or.inr ⟨m2, hm2, hi2⟩

/-- A restaurant id occurs among the defaultdict keys exactly when some
matched row references it. -/
lemma exists_mem_restaurantKeys (rows : List RestaurantMenuItem) (i : Option ℕ) :
    (∃ r ∈ restaurantKeys rows, r.id = i) ↔ ∃ m ∈ rows, m.restaurant.id = i := by
  unfold restaurantKeys
  rw [exists_mem_foldl_insertRestaurant]
  simp

/-- A restaurant's coverage counter is positive exactly when some matched
row references it. -/
lemma availCount_pos_iff (menuItems : List RestaurantMenuItem) (i : Option ℕ)
    (products : List Product) :
    0 < availCount menuItems i products ↔
      ∃ m ∈ matchedRows menuItems products, m.restaurant.id = i := by
  unfold availCount
  rw [← List.countP_eq_length_filter, List.countP_pos_iff]
  simp [beq_iff_eq]

/-- Membership in the matching result is independent of the ranking flag:
it is membership in the filtered key list. -/
lemma mem_get_matching_restaurants (geodesic : ℚ → ℚ → ℚ → ℚ → ℚ) (self : Order)
    (ordered_items : List OrderedItem) (menuItems : List RestaurantMenuItem)
    (ob : Bool) (r : Restaurant) :
    r ∈ self.get_matching_restaurants geodesic ordered_items menuItems ob ↔
      r ∈ (restaurantKeys (matchedRows menuItems (ordered_items.map (fun o => o.product)))).filter
        (fun r => availCount menuItems r.id (ordered_items.map (fun o => o.product)) ==
          (ordered_items.map (fun o => o.product)).length) := by
  cases ob <;> simp [Order.get_matching_restaurants]

end StarBurger

/-! The claims. -/

namespace StarBurger

/-- Claim C1, counterexample: with two line items referencing the same
product A and a restaurant whose availability-true rows cover the
order's distinct product set exactly (count 1 = N = 1), the matching
engine still returns no restaurant, because the source compares the
counter against the length of the duplicated product list, not the
distinct set. -/
theorem C1_counterexample_duplicate_line_items :
    availCount exMenu (some 1) (exItems.map (fun o => o.product)) =
      ((exItems.map (fun o => o.product)).dedup).length
    ∧ exOrder.get_matching_restaurants exGeodesic exItems exMenu true = [] := by
  constructor
  · rfl
  · simp only [Order.get_matching_restaurants]
    rw [show (restaurantKeys (matchedRows exMenu (exItems.map (fun o => o.product)))).filter
        (fun r => availCount exMenu r.id (exItems.map (fun o => o.product)) ==
          (exItems.map (fun o => o.product)).length) = [] from rfl]
    simp

/-- Claim C1, amended: for every order and ranking flag, a restaurant id
occurs in the matching result iff its count of availability-true menu
rows for products occurring in the order's line-item product list is
positive and equals the number of line items (the product list counted
with duplicates), not the size of the distinct product set. -/
theorem C1_matching_returned_iff_full_line_coverage (geodesic : ℚ → ℚ → ℚ → ℚ → ℚ)
    (self : Order) (ordered_items : List OrderedItem)
    (menuItems : List RestaurantMenuItem) (ob : Bool) (i : Option ℕ) :
    (∃ r ∈ self.get_matching_restaurants geodesic ordered_items menuItems ob, r.id = i) ↔
      (0 < availCount menuItems i (ordered_items.map (fun o => o.product)) ∧
        availCount menuItems i (ordered_items.map (fun o => o.product)) =
          (ordered_items.map (fun o => o.product)).length) := by
  constructor
  · rintro ⟨r, hr, hri⟩
    rw [mem_get_matching_restaurants, List.mem_filter] at hr
    obtain ⟨hk, hc⟩ := hr
    rw [beq_iff_eq, hri] at hc
    refine ⟨?_, hc⟩
    rw [availCount_pos_iff]
    exact (exists_mem_restaurantKeys
      (matchedRows menuItems (ordered_items.map (fun o => o.product))) i).mp ⟨r, hk, hri⟩
  · rintro ⟨hpos, hcnt⟩
    rw [availCount_pos_iff] at hpos
    obtain ⟨r, hk, hri⟩ := (exists_mem_restaurantKeys
      (matchedRows menuItems (ordered_items.map (fun o => o.product))) i).mpr hpos
    refine ⟨r, ?_, hri⟩
    rw [mem_get_matching_restaurants, List.mem_filter]
    exact ⟨hk, by rw [beq_iff_eq, hri, hcnt]⟩

/-- Claim C2: on the spec's scenario (product A ×2 at unit price 100,
product B ×1 at unit price 50) the creation hook locks prices 200 and
50 as the claim states, but the derived total is
`Sum(quantity * product_price)` = 2·200 + 1·50 = 450, not the claimed
sum of locked prices 250: the quantity is counted twice. -/
theorem C2_total_amount_double_counts_quantity :
    update_ordered_item_price (fun _ => none) ⟨none, prodA, 2, 0⟩ =
      Except.ok ⟨none, prodA, 2, 200⟩
    ∧ update_ordered_item_price (fun _ => none) ⟨none, prodB, 1, 0⟩ =
      Except.ok ⟨none, prodB, 1, 50⟩
    ∧ total_amount [exItemA2, exItemB1] = 450
    ∧ exItemA2.product_price + exItemB1.product_price = 250 := by
  refine ⟨?_, ?_, ?_, ?_⟩ <;>
    norm_num [update_ordered_item_price, total_amount, prodA, prodB, exItemA2, exItemB1]

/-- Claim C3: a stored line item with locked price P, updated with any
supplied price different from P, is corrected back to P by the pre-save
hook, which returns normally (no error). -/
theorem C3_locked_price_immutable_on_update (db : ℕ → Option OrderedItem)
    (inst previous : OrderedItem) (i : ℕ)
    (hid : inst.id = some i) (hdb : db i = some previous)
    (hne : inst.product_price ≠ previous.product_price) :
    update_ordered_item_price db inst =
      Except.ok { inst with product_price := previous.product_price } := by
  simp only [update_ordered_item_price, hid, hdb]
  rw [if_pos]
  rw [bne_iff_ne]
  exact fun h => hne h.symm

/-- Claim C3, witness: the stored item with locked price 200 updated
with supplied price 999 keeps price 200. -/
theorem C3_locked_price_witness :
    update_ordered_item_price exItemDb exInstItem =
      Except.ok { exInstItem with product_price := 200 } :=
  C3_locked_price_immutable_on_update exItemDb exInstItem exPrevItem 7 rfl rfl
    (by norm_num [exInstItem, exPrevItem])

/-- Claim C4: order creation can never complete, for any database state,
resolver and validated payload: the pre-save hook fetches the previous
row by the still-unset identity and raises `DoesNotExist`, so no order
(with status `SUBMITTED` or otherwise) is ever persisted by
`OrderSerializer.create`. -/
theorem C4_order_creation_always_raises_doesNotExist (db : ℕ → Option Order)
    (resolve : String → Option (ℚ × ℚ)) (payload : Order) :
    OrderSerializer_create db resolve payload = Except.error PyError.doesNotExist := rfl

/-- Claim C5, counterexample: reassigning an order from executing
restaurant 1 to restaurant 2 (both present) while supplying status
`DELIVERED` still forces status `IN_PROGRESS`, contradicting the claim
that only the absent-to-present edge fires the rule. -/
theorem C5_counterexample_reassignment_retriggers :
    exPrev5.executing_restaurant = some 1 ∧ exInst5.executing_restaurant = some 2
    ∧ exInst5.status = OrderStatus.DELIVERED
    ∧ update_order exDb5 exResolveNone exInst5 =
        Except.ok { exInst5 with status := OrderStatus.IN_PROGRESS } :=
  ⟨rfl, rfl, rfl, rfl⟩

/-- Claim C5, amended: in an update of an existing order (address
unchanged), any change of the executing restaurant to a present value —
from absent or from a different present value alike — forces status
`IN_PROGRESS`, overriding the supplied status; keeping the assignment
unchanged or clearing it leaves the supplied status untouched. -/
theorem C5_status_forced_on_any_change_to_present (db : ℕ → Option Order)
    (resolve : String → Option (ℚ × ℚ)) (inst previous : Order) (i : ℕ)
    (hid : inst.id = some i) (hdb : db i = some previous)
    (haddr : inst.delivery_address = previous.delivery_address) :
    (∀ rid : ℕ, inst.executing_restaurant = some rid →
      previous.executing_restaurant ≠ some rid →
      update_order db resolve inst =
        Except.ok { inst with status := OrderStatus.IN_PROGRESS })
    ∧ (inst.executing_restaurant = previous.executing_restaurant ∨
        inst.executing_restaurant = none →
      update_order db resolve inst = Except.ok inst) := by
  constructor
  · intro rid hrid hprev
    have hcond : (previous.executing_restaurant != inst.executing_restaurant &&
        inst.executing_restaurant.isSome) = true := by
      rw [hrid]
      simp only [Option.isSome_some, Bool.and_true, bne_iff_ne, ne_eq]
      exact fun h => hprev h
    simp only [update_order, hid, Option.some_bind, hdb, hcond, if_true]
    simp [haddr]
  · intro h
    have hcond : (previous.executing_restaurant != inst.executing_restaurant &&
        inst.executing_restaurant.isSome) = false := by
      rcases h with h | h
      · rw [h]; simp
      · rw [h]; simp
    simp only [update_order, hid, Option.some_bind, hdb, hcond, Bool.false_eq_true, if_false]
    simp [haddr]

/-- Claim C5, witness: the concrete reassignment 1 → 2 with supplied
status `DELIVERED` results in status `IN_PROGRESS`. -/
theorem C5_status_forced_witness :
    update_order exDb5 exResolveNone exInst5 =
      Except.ok { exInst5 with status := OrderStatus.IN_PROGRESS } :=
  (C5_status_forced_on_any_change_to_present exDb5 exResolveNone exInst5 exPrev5 1
    rfl rfl rfl).1 2 rfl (by decide)

/-- Claim C6: an update changing an order's delivery address (or a
restaurant's address) to a new non-empty value whose lookup is
unresolved does not complete normally: unpacking the resolver's `None`
raises `TypeError`, instead of the claimed non-error outcome that keeps
the prior coordinates. -/
theorem C6_unresolved_lookup_raises_typeError (db : ℕ → Option Order)
    (rdb : ℕ → Option Restaurant) (resolve : String → Option (ℚ × ℚ))
    (inst previous : Order) (i : ℕ)
    (hid : inst.id = some i) (hdb : db i = some previous)
    (hchg : previous.delivery_address ≠ inst.delivery_address)
    (hne : inst.delivery_address ≠ "")
    (hexec : inst.executing_restaurant = previous.executing_restaurant)
    (hres : resolve inst.delivery_address = none) :
    update_order db resolve inst = Except.error PyError.typeError
    ∧ ∀ (rinst previousR : Restaurant) (j : ℕ), rinst.id = some j → rdb j = some previousR →
        previousR.address ≠ rinst.address → rinst.address ≠ "" →
        resolve rinst.address = none →
        update_restaurant_location rdb resolve rinst = Except.error PyError.typeError := by
  constructor
  · have hcond : (previous.executing_restaurant != inst.executing_restaurant &&
        inst.executing_restaurant.isSome) = false := by
      rw [hexec]; simp
    simp only [update_order, hid, Option.some_bind, hdb, hcond, Bool.false_eq_true, if_false]
    rw [if_pos]
    · rw [hres]
    · simp [bne_iff_ne, hchg, hne]
  · intro rinst previousR j hjd hrdb hchgR hneR hresR
    simp only [update_restaurant_location, hjd, Option.some_bind, hrdb]
    rw [if_pos]
    · rw [hresR]
    · simp [bne_iff_ne, hchgR, hneR]

/-- Claim C6, witness: changing the example order's address to
"new addr" and the example restaurant's address to "addr2" under an
always-unresolved resolver raises `TypeError` in both hooks. -/
theorem C6_unresolved_lookup_witness :
    update_order exDb6 exResolveNone exInst6 = Except.error PyError.typeError
    ∧ update_restaurant_location exRdb exResolveNone exInstR =
        Except.error PyError.typeError :=
  have h := C6_unresolved_lookup_raises_typeError exDb6 exRdb exResolveNone exInst6
    exOrder 1 rfl rfl (by decide) (by decide) rfl rfl
  ⟨h.1, h.2 exInstR exR1 1 rfl rfl (by decide) (by decide) rfl⟩

/-- Claim C7: with ranking enabled the returned list is pairwise
ascending in the sort key (distance with unknown mapped to `⊤`), it is a
permutation of the unranked qualifying list (so the property holds for
every input ordering), and any restaurant whose computed distance is
unknown or exactly zero has sort key `⊤` and therefore sorts last. -/
theorem C7_ranking_sorted_by_distance_unknown_last (geodesic : ℚ → ℚ → ℚ → ℚ → ℚ)
    (self : Order) (ordered_items : List OrderedItem)
    (menuItems : List RestaurantMenuItem) :
    (self.get_matching_restaurants geodesic ordered_items menuItems true).Pairwise
      (fun a b => sortKey geodesic a self.delivery_latitude self.delivery_longitude ≤
        sortKey geodesic b self.delivery_latitude self.delivery_longitude)
    ∧ (self.get_matching_restaurants geodesic ordered_items menuItems true).Perm
        (self.get_matching_restaurants geodesic ordered_items menuItems false)
    ∧ ∀ r : Restaurant,
        (r.get_distance_to geodesic self.delivery_latitude self.delivery_longitude = none ∨
          r.get_distance_to geodesic self.delivery_latitude self.delivery_longitude = some 0) →
        sortKey geodesic r self.delivery_latitude self.delivery_longitude = ⊤ := by
  have trans : ∀ a b c : Restaurant,
      decide (sortKey geodesic a self.delivery_latitude self.delivery_longitude ≤
        sortKey geodesic b self.delivery_latitude self.delivery_longitude) →
      decide (sortKey geodesic b self.delivery_latitude self.delivery_longitude ≤
        sortKey geodesic c self.delivery_latitude self.delivery_longitude) →
      decide (sortKey geodesic a self.delivery_latitude self.delivery_longitude ≤
        sortKey geodesic c self.delivery_latitude self.delivery_longitude) := by
    intro a b c hab hbc
    simp only [decide_eq_true_eq] at *
    exact le_trans hab hbc
  have total : ∀ a b : Restaurant,
      (decide (sortKey geodesic a self.delivery_latitude self.delivery_longitude ≤
        sortKey geodesic b self.delivery_latitude self.delivery_longitude) ||
      decide (sortKey geodesic b self.delivery_latitude self.delivery_longitude ≤
        sortKey geodesic a self.delivery_latitude self.delivery_longitude)) = true := by
    intro a b
    simp only [Bool.or_eq_true, decide_eq_true_eq]
    exact le_total _ _
  refine ⟨?_, ?_, ?_⟩
  · have hs := List.sorted_mergeSort trans total
      ((restaurantKeys (matchedRows menuItems (ordered_items.map (fun o => o.product)))).filter
        (fun r => availCount menuItems r.id (ordered_items.map (fun o => o.product)) ==
          (ordered_items.map (fun o => o.product)).length))
    have he : self.get_matching_restaurants geodesic ordered_items menuItems true =
        ((restaurantKeys (matchedRows menuItems (ordered_items.map (fun o => o.product)))).filter
          (fun r => availCount menuItems r.id (ordered_items.map (fun o => o.product)) ==
            (ordered_items.map (fun o => o.product)).length)).mergeSort
          (fun a b => decide (sortKey geodesic a self.delivery_latitude self.delivery_longitude ≤
            sortKey geodesic b self.delivery_latitude self.delivery_longitude)) := rfl
    rw [he]
    exact hs.imp (fun h => of_decide_eq_true h)
  · have he : self.get_matching_restaurants geodesic ordered_items menuItems false =
        (restaurantKeys (matchedRows menuItems (ordered_items.map (fun o => o.product)))).filter
          (fun r => availCount menuItems r.id (ordered_items.map (fun o => o.product)) ==
            (ordered_items.map (fun o => o.product)).length) := rfl
    rw [he]
    exact List.mergeSort_perm _ _
  · intro r h
    unfold sortKey
    rcases h with h | h <;> rw [h]
    simp

/-- Claim C8: on a successful response the adapter returns the two
tokens of the first place's `pos` string in `pos` order — which the
source itself names `lon, lat`, so the pair is (longitude, latitude),
not the claimed (latitude, longitude) — and it returns `None` exactly
for a non-success status or an empty result set. -/
theorem C8_resolve_returns_lon_lat_and_none_conditions :
    resolve_location_for_address ⟨true, ["37.61 55.75"]⟩ =
      Except.ok (some ("37.61", "55.75"))
    ∧ resolve_location_for_address ⟨false, ["37.61 55.75"]⟩ = Except.ok none
    ∧ resolve_location_for_address ⟨true, []⟩ = Except.ok none :=
  ⟨rfl, rfl, rfl⟩

/-- Claim C9: when all four coordinate values are present but at least
one equals exactly 0, `get_distance_to` returns `None` (truthiness of
the `all` test) and the restaurant's sort key is `⊤`, so it sorts
last. -/
theorem C9_zero_coordinate_gives_unknown_distance (geodesic : ℚ → ℚ → ℚ → ℚ → ℚ)
    (r : Restaurant) (alat along : Option ℚ)
    (h1 : alat.isSome) (h2 : along.isSome) (h3 : r.latitude.isSome) (h4 : r.longitude.isSome)
    (h0 : alat = some 0 ∨ along = some 0 ∨ r.latitude = some 0 ∨ r.longitude = some 0) :
    r.get_distance_to geodesic alat along = none
    ∧ sortKey geodesic r alat along = ⊤ := by
  have hfalse : (truthy alat && truthy along && truthy r.latitude && truthy r.longitude)
      = false := by
    rcases h0 with h | h | h | h <;> rw [h] <;> simp [truthy]
  constructor
  · simp only [Restaurant.get_distance_to, hfalse, Bool.false_eq_true, if_false]
  · unfold sortKey
    simp only [Restaurant.get_distance_to, hfalse, Bool.false_eq_true, if_false]

/-- Claim C9, witness: a restaurant at latitude exactly 0 with all four
values present gets distance `None` and sort key `⊤`. -/
theorem C9_zero_coordinate_witness :
    exR9.get_distance_to exGeodesic (some 55) (some 37) = none
    ∧ sortKey exGeodesic exR9 (some 55) (some 37) = ⊤ :=
  C9_zero_coordinate_gives_unknown_distance exGeodesic exR9 (some 55) (some 37)
    rfl rfl rfl rfl (Or.inr (Or.inr (Or.inl rfl)))

/-- Claim C10: saving a brand-new restaurant (identity unset) makes the
pre-save hook fetch by the unset identity and raise `DoesNotExist`, for
every database state and resolver; an update of an already-persisted
restaurant never raises `DoesNotExist`. -/
theorem C10_restaurant_creation_raises_doesNotExist (db : ℕ → Option Restaurant)
    (resolve : String → Option (ℚ × ℚ)) (inst : Restaurant) :
    (inst.id = none → update_restaurant_location db resolve inst =
      Except.error PyError.doesNotExist)
    ∧ (∀ (j : ℕ) (previous : Restaurant), inst.id = some j → db j = some previous →
        update_restaurant_location db resolve inst ≠ Except.error PyError.doesNotExist) := by
  constructor
  · intro h
    simp only [update_restaurant_location, h, Option.none_bind]
  · intro j previous hid hdb
    simp only [update_restaurant_location, hid, Option.some_bind, hdb]
    split
    · split
      · simp
      · split <;> simp
    · simp

/-- Claim C10, witness: creating the fresh example restaurant raises
`DoesNotExist`, while updating the persisted one does not. -/
theorem C10_restaurant_creation_witness :
    update_restaurant_location exRdb exResolveNone exFreshR =
      Except.error PyError.doesNotExist
    ∧ update_restaurant_location exRdb exResolveNone exInstR ≠
      Except.error PyError.doesNotExist :=
  ⟨(C10_restaurant_creation_raises_doesNotExist exRdb exResolveNone exFreshR).1 rfl,
    (C10_restaurant_creation_raises_doesNotExist exRdb exResolveNone exInstR).2 1 exR1 rfl rfl⟩

end StarBurger
